import Mathlib

/-!
Verification development for the gorush push-notification gateway.

The HTTP shim (`src/gorush/server.go`) is embedded directly from the source:
`abortWithError` and `pushHandler` below mirror it line by line. The
Notification Dispatch Engine (`queueNotification`, the worker pool, the
retry policy and the Stats aggregator) is referenced by the shim but its
source is not part of the repository snapshot, so those components are
modelled from the specification and are marked as such in their doc
comments.
-/

namespace Gorush

/-- Modelled from the spec: the platform enumeration identifying the target
provider of a notification. The engine only needs a key for the adapter
registry, so an opaque numeric tag suffices. -/
abbrev Platform := Nat

/-- Modelled from the spec: platform-agnostic message fields of a
notification (title, body, custom data mapping of string keys to values). -/
structure Payload where
  title : String := ""
  body : String := ""
  data : List (String × String) := []
deriving Repr, DecidableEq

/-- Modelled from the spec: one logical push message. `platform` selects the
provider adapter, `tokens` is the ordered sequence of device tokens the
message fans out to, `retry_count` starts at 0 and is bounded by the
configured maximum. -/
structure Notification where
  platform : Platform
  tokens : List String
  payload : Payload := {}
  retry_count : Nat := 0
deriving Repr, DecidableEq

/-- The request body bound by the HTTP shim (`RequestPush` in the source):
a batch is an ordered sequence of notifications. -/
structure RequestPush where
  notifications : List Notification
deriving Repr, DecidableEq

/-- Modelled from the spec: the classified result of one dispatch attempt
for one (Notification, token) pair. -/
inductive DeliveryOutcome
  | success
  | retryableFailure (reason : String)
  | permanentFailure (reason : String)
deriving Repr, DecidableEq

/-- Modelled from the spec: a provider adapter converts a notification into
a provider-specific delivery attempt for a single token and classifies the
result. The extra `Nat` argument is the attempt index (the current
`retry_count`): it models the state of the external provider across
successive attempts at the same (token, payload) pair, so that retries may
observe different outcomes. -/
structure Adapter where
  send : String → Payload → Nat → DeliveryOutcome

/-- Modelled from the spec: the static adapter registry keyed by platform;
`none` means no adapter is registered for that platform. -/
abbrev Registry := Platform → Option Adapter

/-- Modelled from the spec: the decision of the retry policy for one
observed outcome. -/
inductive RetryAction
  | stop (final : DeliveryOutcome)
  | retryAfter (delay : Nat)
deriving Repr, DecidableEq

/-- Modelled from the spec: the default deterministic backoff schedule, a
bounded exponential function of the retry count. -/
def backoff (retryCount : Nat) : Nat :=
  min (2 ^ retryCount) 60

/-- Modelled from the spec: the retry policy
NextAction(outcome, retry_count). Success and permanent failures always
stop; a retryable failure is retried while retry_count is below MaxRetry
and otherwise converts to a final PermanentFailure with reason
RetryExhausted. -/
def nextAction (outcome : DeliveryOutcome) (retryCount maxRetry : Nat) :
    RetryAction :=
  match outcome with
  | .success => .stop .success
  | .permanentFailure r => .stop (.permanentFailure r)
  | .retryableFailure _ =>
      if retryCount < maxRetry then .retryAfter (backoff retryCount)
      else .stop (.permanentFailure "RetryExhausted")

/-- Modelled from the spec: the attempt loop for one (Notification, token)
pair, by recursion on the number of retries still allowed. `send k` is the
adapter outcome observed on the attempt made with retry_count `k`. Returns
the terminal outcome together with the total number of adapter invocations
performed. -/
def deliverGo (send : Nat → DeliveryOutcome) :
    Nat → Nat → DeliveryOutcome × Nat
  | 0, retryCount =>
    match send retryCount with
    | .success => (.success, 1)
    | .permanentFailure r => (.permanentFailure r, 1)
    | .retryableFailure _ => (.permanentFailure "RetryExhausted", 1)
  | left + 1, retryCount =>
    match send retryCount with
    | .success => (.success, 1)
    | .permanentFailure r => (.permanentFailure r, 1)
    | .retryableFailure _ =>
        let rest := deliverGo send left (retryCount + 1)
        (rest.1, rest.2 + 1)

/-- Modelled from the spec: the delivery loop for one (Notification, token)
pair starting from the given retry_count, allowing retries while
retry_count is below maxRetry. -/
def deliverFrom (send : Nat → DeliveryOutcome) (maxRetry retryCount : Nat) :
    DeliveryOutcome × Nat :=
  deliverGo send (maxRetry - retryCount) retryCount

/-- The delivery loop agrees with the retry policy at every step: one step
of deliverFrom does exactly what nextAction dictates for the observed
outcome, and a retried attempt continues with retry_count incremented. -/
theorem deliverFrom_follows_nextAction (send : Nat → DeliveryOutcome)
    (maxRetry retryCount : Nat) :
    deliverFrom send maxRetry retryCount =
      match nextAction (send retryCount) retryCount maxRetry with
      | .stop final => (final, 1)
      | .retryAfter _ =>
          let rest := deliverFrom send maxRetry (retryCount + 1)
          (rest.1, rest.2 + 1) := by
  rw [deliverFrom, nextAction.eq_def]
  by_cases h : retryCount < maxRetry
  · have h2 : maxRetry - retryCount = (maxRetry - (retryCount + 1)) + 1 := by
      omega
    rw [h2, deliverGo]
    cases send retryCount with
    | success => rfl
    | permanentFailure r => rfl
    | retryableFailure r => simp [h, deliverFrom]
  · have h2 : maxRetry - retryCount = 0 := by omega
    rw [h2, deliverGo]
    cases send retryCount with
    | success => rfl
    | permanentFailure r => rfl
    | retryableFailure r => simp [h]

/-- Modelled from the spec: a user-facing log record for one attempted
(notification, token) pair. -/
structure LogEntry where
  notification_index : Nat
  token : String
  status : String
  error_message : Option String
deriving Repr, DecidableEq

/-- Modelled from the spec: render a terminal delivery outcome as the log
entry returned to the caller. -/
def mkLogEntry (idx : Nat) (token : String) : DeliveryOutcome → LogEntry
  | .success => ⟨idx, token, "success", none⟩
  | .retryableFailure r => ⟨idx, token, "failure", some r⟩
  | .permanentFailure r => ⟨idx, token, "failure", some r⟩

/-- Modelled from the spec: process one (notification, token) delivery. If
no adapter is registered for the platform, record a permanent
UnknownPlatform failure without invoking any adapter; otherwise run the
delivery loop. Returns the log entry and the number of adapter
invocations. -/
def processToken (registry : Registry) (maxRetry : Nat) (idx : Nat)
    (n : Notification) (token : String) : LogEntry × Nat :=
  match registry n.platform with
  | none => (mkLogEntry idx token (.permanentFailure "UnknownPlatform"), 0)
  | some adapter =>
      let r := deliverFrom (fun k => adapter.send token n.payload k)
                 maxRetry n.retry_count
      (mkLogEntry idx token r.1, r.2)

/-- Modelled from the spec: one dispatch job is an indexed notification;
the index is the notification's position in its batch. -/
abbrev Job := Nat × Notification

/-- Modelled from the spec: a worker processes one job by invoking the
delivery path once per token in the job's token list. -/
def processJob (registry : Registry) (maxRetry : Nat) (j : Job) :
    List (LogEntry × Nat) :=
  j.2.tokens.map (fun t => processToken registry maxRetry j.1 j.2 t)

/-- Modelled from the spec: the worker loop draining the dispatch queue,
one job at a time, until the queue is empty; no job outcome stops the
loop. -/
def workerDrain (registry : Registry) (maxRetry : Nat) :
    List Job → List (LogEntry × Nat)
  | [] => []
  | j :: rest => processJob registry maxRetry j ++
      workerDrain registry maxRetry rest

/-- Modelled from the spec: the batch is fanned out into one job per
notification, keyed by submission index. -/
def batchJobs (batch : List Notification) : List Job :=
  batch.enum

/-- Modelled from the spec: the log entries of a batch, in submission
order. -/
def batchLogs (registry : Registry) (maxRetry : Nat)
    (batch : List Notification) : List LogEntry :=
  (workerDrain registry maxRetry (batchJobs batch)).map Prod.fst

/-- Modelled from the spec: the summary counts visible to the caller. -/
structure Counts where
  success : Nat
  failure : Nat
deriving Repr, DecidableEq

/-- Modelled from the spec: counts are derived from the terminal log
entries of the batch. -/
def countsOf (logs : List LogEntry) : Counts :=
  ⟨(logs.filter (fun l => l.status = "success")).length,
   (logs.filter (fun l => l.status = "failure")).length⟩

/-- Modelled from the spec: the process-wide running totals of the Stats
aggregator. -/
structure Stats where
  submitted : Nat
  succeeded : Nat
  failed : Nat
deriving Repr, DecidableEq

/-- Modelled from the spec: the increment operations of the Stats
aggregator contract. -/
inductive StatOp
  | incSubmitted (n : Nat)
  | incSucceeded (n : Nat)
  | incFailed (n : Nat)
deriving Repr, DecidableEq

/-- Modelled from the spec: one serialized/atomic application of an
increment to the shared Stats. -/
def applyOp (s : Stats) : StatOp → Stats
  | .incSubmitted n => { s with submitted := s.submitted + n }
  | .incSucceeded n => { s with succeeded := s.succeeded + n }
  | .incFailed n => { s with failed := s.failed + n }

/-- A sequence of increments applied in order. -/
def applyOps (s : Stats) (ops : List StatOp) : Stats :=
  ops.foldl applyOp s

/-- The submitted increment carried by one operation. -/
def opSubmitted : StatOp → Nat
  | .incSubmitted n => n
  | _ => 0

/-- The succeeded increment carried by one operation. -/
def opSucceeded : StatOp → Nat
  | .incSucceeded n => n
  | _ => 0

/-- The failed increment carried by one operation. -/
def opFailed : StatOp → Nat
  | .incFailed n => n
  | _ => 0

/-- Modelled from the spec: the Stats increments a worker emits for one
(notification, token) delivery: the submission is counted once, and the
single terminal outcome is folded in as one succeeded or one failed
increment, regardless of how many retry attempts preceded it. -/
def tokenStatOps (registry : Registry) (maxRetry : Nat) (idx : Nat)
    (n : Notification) (token : String) : List StatOp :=
  let log := (processToken registry maxRetry idx n token).1
  [.incSubmitted 1,
   if log.status = "success" then .incSucceeded 1 else .incFailed 1]

/-- Modelled from the spec: the Stats increments emitted for one job. -/
def jobStatOps (registry : Registry) (maxRetry : Nat) (j : Job) :
    List StatOp :=
  (j.2.tokens.map (fun t => tokenStatOps registry maxRetry j.1 j.2 t)).flatten

/-- Modelled from the spec: the Stats increments emitted while draining a
queue of jobs. -/
def queueStatOps (registry : Registry) (maxRetry : Nat) :
    List Job → List StatOp
  | [] => []
  | j :: rest => jobStatOps registry maxRetry j ++
      queueStatOps registry maxRetry rest

/-- Total number of device tokens across all notifications of a batch. -/
def totalTokens (batch : List Notification) : Nat :=
  (batch.map (fun n => n.tokens.length)).sum

/-- Modelled from the spec: queueNotification is called once admission has
succeeded; it enqueues every notification of the batch, drains them
synchronously (engine variant (a)), folds the terminal outcomes into
Stats, and returns the summary counts together with one log entry per
attempted (notification, token) pair. -/
def queueNotification (registry : Registry) (maxRetry : Nat) (stats : Stats)
    (form : RequestPush) : Counts × List LogEntry × Stats :=
  let logs := batchLogs registry maxRetry form.notifications
  (countsOf logs, logs,
   applyOps stats
     (queueStatOps registry maxRetry (batchJobs form.notifications)))

/-- The JSON body produced by abortWithError: exactly the two fields code
and message, mirroring the gin.H literal in the source. -/
structure ErrorBody where
  code : Int
  message : String
deriving Repr, DecidableEq

/-- A response sent by the push handler: either an aborted error response
or the JSON reply of an accepted push. -/
inductive PushResponse
  | aborted (status : Int) (body : ErrorBody)
  | replied (status : Int) (success : String) (counts : Counts)
      (logs : List LogEntry)
deriving Repr, DecidableEq

/-- Embedded from src/gorush/server.go: abortWithError aborts with the
given status code and a JSON body holding the code and the message. -/
def abortWithError (code : Int) (message : String) : PushResponse :=
  .aborted code { code := code, message := message }

/-- The rejection message for an unparseable request body,
from src/gorush/server.go line 52. -/
def missingFieldMsg : String := "Missing notifications field."

/-- The rejection message for an empty batch,
from src/gorush/server.go line 59. -/
def emptyFieldMsg : String := "Notifications field is empty."

/-- The rejection message for an over-limit batch,
from src/gorush/server.go line 66. -/
def overLimitMsg (n : Nat) (limit : Int) : String :=
  "Number of notifications(" ++ toString n ++ ") over limit(" ++
    toString limit ++ ")"

/-- The outcome of one pushHandler invocation: the response written to the
client, and the batch passed to queueNotification when it was invoked
(none when the handler returned without invoking it). -/
structure HandlerResult where
  response : PushResponse
  queued : Option RequestPush
deriving Repr, DecidableEq

/-- Embedded from src/gorush/server.go: pushHandler. `bound` is the result
of binding the request body to RequestPush (the error string standing for
the binding error). `maxNotification` is PushConf.Core.MaxNotification, an
int64 in the source, so the batch length is compared as an integer. The
Stats threading makes explicit that the rejection paths return before
queueNotification and touch no engine state. -/
def pushHandler (registry : Registry) (maxRetry : Nat)
    (maxNotification : Int) (stats : Stats)
    (bound : Except String RequestPush) : HandlerResult × Stats :=
  match bound with
  | .error _ =>
      (⟨abortWithError 400 missingFieldMsg, none⟩, stats)
  | .ok form =>
      if form.notifications.length = 0 then
        (⟨abortWithError 400 emptyFieldMsg, none⟩, stats)
      else if (form.notifications.length : Int) > maxNotification then
        (⟨abortWithError 400
            (overLimitMsg form.notifications.length maxNotification),
          none⟩, stats)
      else
        let r := queueNotification registry maxRetry stats form
        (⟨.replied 200 "ok" r.1 r.2.1, some form⟩, r.2.2)

/-- An adapter that only ever reports retryable failures drives the
attempt loop through all its allowed retries and ends in RetryExhausted,
having invoked the adapter once per allowed attempt. -/
theorem deliverGo_retryable (send : Nat → DeliveryOutcome)
    (hret : ∀ k, ∃ r, send k = .retryableFailure r) (left : Nat) :
    ∀ retryCount, deliverGo send left retryCount =
      (.permanentFailure "RetryExhausted", left + 1) := by
  induction left with
  | zero =>
      intro rc
      obtain ⟨r, hr⟩ := hret rc
      rw [deliverGo, hr]
  | succ l ih =>
      intro rc
      obtain ⟨r, hr⟩ := hret rc
      rw [deliverGo, hr]
      simp [ih (rc + 1)]

/-- Every log entry produced by the engine carries one of the two terminal
status strings. -/
theorem mkLogEntry_status (idx : Nat) (token : String) (o : DeliveryOutcome) :
    (mkLogEntry idx token o).status = "success" ∨
    (mkLogEntry idx token o).status = "failure" := by
  cases o <;> simp [mkLogEntry]

/-- The log entry of a processed token is a rendered terminal outcome. -/
theorem processToken_fst_shape (registry : Registry) (maxRetry idx : Nat)
    (n : Notification) (token : String) :
    ∃ o, (processToken registry maxRetry idx n token).1 =
      mkLogEntry idx token o := by
  cases h : registry n.platform with
  | none =>
      exact ⟨.permanentFailure "UnknownPlatform", by simp [processToken, h]⟩
  | some a =>
      exact ⟨(deliverFrom (fun k => a.send token n.payload k) maxRetry
        n.retry_count).1, by simp [processToken, h]⟩

/-- The status of a processed token is either success or failure. -/
theorem processToken_status (registry : Registry) (maxRetry idx : Nat)
    (n : Notification) (token : String) :
    (processToken registry maxRetry idx n token).1.status = "success" ∨
    (processToken registry maxRetry idx n token).1.status = "failure" := by
  obtain ⟨o, ho⟩ := processToken_fst_shape registry maxRetry idx n token
  rw [ho]
  exact mkLogEntry_status idx token o

/-- Applying a sequence of increments adds exactly the carried submitted
increments, in any order of application. -/
theorem applyOps_submitted (ops : List StatOp) :
    ∀ s : Stats, (applyOps s ops).submitted =
      s.submitted + (ops.map opSubmitted).sum := by
  induction ops with
  | nil => intro s; simp [applyOps]
  | cons op rest ih =>
      intro s
      have h : applyOps s (op :: rest) = applyOps (applyOp s op) rest := rfl
      rw [h, ih]
      cases op <;> simp [applyOp, opSubmitted] <;> omega

/-- Applying a sequence of increments adds exactly the carried succeeded
increments. -/
theorem applyOps_succeeded (ops : List StatOp) :
    ∀ s : Stats, (applyOps s ops).succeeded =
      s.succeeded + (ops.map opSucceeded).sum := by
  induction ops with
  | nil => intro s; simp [applyOps]
  | cons op rest ih =>
      intro s
      have h : applyOps s (op :: rest) = applyOps (applyOp s op) rest := rfl
      rw [h, ih]
      cases op <;> simp [applyOp, opSucceeded] <;> omega

/-- Applying a sequence of increments adds exactly the carried failed
increments. -/
theorem applyOps_failed (ops : List StatOp) :
    ∀ s : Stats, (applyOps s ops).failed =
      s.failed + (ops.map opFailed).sum := by
  induction ops with
  | nil => intro s; simp [applyOps]
  | cons op rest ih =>
      intro s
      have h : applyOps s (op :: rest) = applyOps (applyOp s op) rest := rfl
      rw [h, ih]
      cases op <;> simp [applyOp, opFailed] <;> omega

/-- One token contributes exactly one submitted increment. -/
theorem tokenStatOps_submitted (registry : Registry) (maxRetry idx : Nat)
    (n : Notification) (token : String) :
    ((tokenStatOps registry maxRetry idx n token).map opSubmitted).sum = 1 := by
  by_cases h :
      (processToken registry maxRetry idx n token).1.status = "success" <;>
    simp [tokenStatOps, h, opSubmitted]

/-- One token contributes one succeeded increment exactly when its
terminal log entry reports success. -/
theorem tokenStatOps_succeeded (registry : Registry) (maxRetry idx : Nat)
    (n : Notification) (token : String) :
    ((tokenStatOps registry maxRetry idx n token).map opSucceeded).sum =
      if (processToken registry maxRetry idx n token).1.status = "success"
      then 1 else 0 := by
  by_cases h :
      (processToken registry maxRetry idx n token).1.status = "success" <;>
    simp [tokenStatOps, h, opSucceeded]

/-- One token contributes one failed increment exactly when its terminal
log entry reports failure. -/
theorem tokenStatOps_failed (registry : Registry) (maxRetry idx : Nat)
    (n : Notification) (token : String) :
    ((tokenStatOps registry maxRetry idx n token).map opFailed).sum =
      if (processToken registry maxRetry idx n token).1.status = "failure"
      then 1 else 0 := by
  rcases processToken_status registry maxRetry idx n token with h | h <;>
    simp [tokenStatOps, h, opFailed]

/-- The stat operations of a token list carry one submitted increment per
token. -/
theorem flatTokenOps_submitted (registry : Registry) (maxRetry idx : Nat)
    (n : Notification) (ts : List String) :
    (((ts.map (fun t => tokenStatOps registry maxRetry idx n t)).flatten).map
      opSubmitted).sum = ts.length := by
  induction ts with
  | nil => simp
  | cons t rest ih =>
      simp only [List.map_cons, List.flatten_cons, List.map_append,
        List.sum_append, ih, tokenStatOps_submitted, List.length_cons]
      omega

/-- The stat operations of a token list carry one succeeded increment per
token whose terminal log entry reports success. -/
theorem flatTokenOps_succeeded (registry : Registry) (maxRetry idx : Nat)
    (n : Notification) (ts : List String) :
    (((ts.map (fun t => tokenStatOps registry maxRetry idx n t)).flatten).map
      opSucceeded).sum =
    ((ts.map (fun t => (processToken registry maxRetry idx n t).1)).filter
      (fun l => l.status = "success")).length := by
  induction ts with
  | nil => simp
  | cons t rest ih =>
      simp only [List.map_cons, List.flatten_cons, List.map_append,
        List.sum_append, ih, tokenStatOps_succeeded, List.filter_cons]
      by_cases h :
          (processToken registry maxRetry idx n t).1.status = "success" <;>
        simp [h] <;> omega

/-- The stat operations of a token list carry one failed increment per
token whose terminal log entry reports failure. -/
theorem flatTokenOps_failed (registry : Registry) (maxRetry idx : Nat)
    (n : Notification) (ts : List String) :
    (((ts.map (fun t => tokenStatOps registry maxRetry idx n t)).flatten).map
      opFailed).sum =
    ((ts.map (fun t => (processToken registry maxRetry idx n t).1)).filter
      (fun l => l.status = "failure")).length := by
  induction ts with
  | nil => simp
  | cons t rest ih =>
      simp only [List.map_cons, List.flatten_cons, List.map_append,
        List.sum_append, ih, tokenStatOps_failed, List.filter_cons]
      by_cases h :
          (processToken registry maxRetry idx n t).1.status = "failure" <;>
        simp [h] <;> omega

/-- Draining a queue of jobs emits one submitted increment per token of
each job. -/
theorem queueStatOps_submitted (registry : Registry) (maxRetry : Nat)
    (jobs : List Job) :
    ((queueStatOps registry maxRetry jobs).map opSubmitted).sum =
      (jobs.map (fun j => j.2.tokens.length)).sum := by
  induction jobs with
  | nil => simp [queueStatOps]
  | cons j rest ih =>
      simp only [queueStatOps, jobStatOps, List.map_cons, List.map_append,
        List.sum_append, List.sum_cons, ih, flatTokenOps_submitted]

/-- Draining a queue of jobs emits succeeded increments matching exactly
the success log entries it produces. -/
theorem queueStatOps_succeeded (registry : Registry) (maxRetry : Nat)
    (jobs : List Job) :
    ((queueStatOps registry maxRetry jobs).map opSucceeded).sum =
      (((workerDrain registry maxRetry jobs).map Prod.fst).filter
        (fun l => l.status = "success")).length := by
  induction jobs with
  | nil => simp [queueStatOps, workerDrain]
  | cons j rest ih =>
      simp only [queueStatOps, jobStatOps, workerDrain, processJob,
        List.map_append, List.sum_append, List.filter_append,
        List.length_append, List.map_map, ih, flatTokenOps_succeeded]
      rfl

/-- Draining a queue of jobs emits failed increments matching exactly the
failure log entries it produces. -/
theorem queueStatOps_failed (registry : Registry) (maxRetry : Nat)
    (jobs : List Job) :
    ((queueStatOps registry maxRetry jobs).map opFailed).sum =
      (((workerDrain registry maxRetry jobs).map Prod.fst).filter
        (fun l => l.status = "failure")).length := by
  induction jobs with
  | nil => simp [queueStatOps, workerDrain]
  | cons j rest ih =>
      simp only [queueStatOps, jobStatOps, workerDrain, processJob,
        List.map_append, List.sum_append, List.filter_append,
        List.length_append, List.map_map, ih, flatTokenOps_failed]
      rfl

/-- Draining a queue of jobs produces one log entry per token of each
job. -/
theorem workerDrain_length (registry : Registry) (maxRetry : Nat)
    (jobs : List Job) :
    (workerDrain registry maxRetry jobs).length =
      (jobs.map (fun j => j.2.tokens.length)).sum := by
  induction jobs with
  | nil => simp [workerDrain]
  | cons j rest ih => simp [workerDrain, processJob, ih]

/-- Every log entry produced while draining a queue reports success or
failure. -/
theorem workerDrain_status (registry : Registry) (maxRetry : Nat)
    (jobs : List Job) :
    ∀ p ∈ workerDrain registry maxRetry jobs,
      p.1.status = "success" ∨ p.1.status = "failure" := by
  induction jobs with
  | nil => simp [workerDrain]
  | cons j rest ih =>
      intro p hp
      rw [workerDrain, List.mem_append] at hp
      rcases hp with hp | hp
      · obtain ⟨t, _, rfl⟩ := List.mem_map.mp hp
        exact processToken_status registry maxRetry j.1 j.2 t
      · exact ih p hp

/-- When every entry of a log list reports success or failure, the success
and failure counts partition its length. -/
theorem filter_status_partition (logs : List LogEntry)
    (h : ∀ l ∈ logs, l.status = "success" ∨ l.status = "failure") :
    (logs.filter (fun l => l.status = "success")).length +
      (logs.filter (fun l => l.status = "failure")).length = logs.length := by
  induction logs with
  | nil => simp
  | cons l rest ih =>
      have hl := h l (List.mem_cons_self l rest)
      have ih2 := ih (fun x hx => h x (List.mem_cons_of_mem l hx))
      rcases hl with hl | hl <;>
        simp only [List.filter_cons, hl, List.length_cons] <;>
        simp <;> omega

/-- The enumerated jobs of a batch carry the batch's token counts,
independently of the start index. -/
theorem enumFrom_tokens_sum (batch : List Notification) :
    ∀ i, ((List.enumFrom i batch).map
      (fun j => j.2.tokens.length)).sum = totalTokens batch := by
  induction batch with
  | nil => intro i; simp [totalTokens]
  | cons n rest ih =>
      intro i
      simp only [List.enumFrom, List.map_cons, List.sum_cons, ih, totalTokens]

/-- The over-limit message never coincides with the malformed-body
message, whatever the numbers interpolated into it. -/
theorem overLimitMsg_ne_missingFieldMsg (n : Nat) (limit : Int) :
    overLimitMsg n limit ≠ missingFieldMsg := by
  intro h
  have hd := congrArg String.data h
  simp only [overLimitMsg, missingFieldMsg, String.data_append,
    List.append_assoc] at hd
  have h0 := congrArg (fun l => l[0]?) hd
  simp only at h0
  rw [List.getElem?_append_left (by decide)] at h0
  exact absurd h0 (by decide)

/-- The over-limit message never coincides with the empty-batch message,
whatever the numbers interpolated into it. -/
theorem overLimitMsg_ne_emptyFieldMsg (n : Nat) (limit : Int) :
    overLimitMsg n limit ≠ emptyFieldMsg := by
  intro h
  have hd := congrArg String.data h
  simp only [overLimitMsg, emptyFieldMsg, String.data_append,
    List.append_assoc] at hd
  have h1 := congrArg (fun l => l[1]?) hd
  simp only at h1
  rw [List.getElem?_append_left (by decide)] at h1
  exact absurd h1 (by decide)

/-- Every log entry of a batch reports success or failure. -/
theorem batchLogs_status (registry : Registry) (maxRetry : Nat)
    (batch : List Notification) :
    ∀ l ∈ batchLogs registry maxRetry batch,
      l.status = "success" ∨ l.status = "failure" := by
  intro l hl
  rw [batchLogs] at hl
  obtain ⟨p, hp, rfl⟩ := List.mem_map.mp hl
  exact workerDrain_status registry maxRetry (batchJobs batch) p hp

/-- A batch produces one log entry per token. -/
theorem batchLogs_length (registry : Registry) (maxRetry : Nat)
    (batch : List Notification) :
    (batchLogs registry maxRetry batch).length = totalTokens batch := by
  rw [batchLogs, List.length_map, workerDrain_length, batchJobs]
  exact enumFrom_tokens_sum batch 0

/-- A sample registry for concrete instantiations: platform 1 carries an
adapter that always succeeds, every other platform is unregistered. -/
def sampleRegistry : Registry :=
  fun p => if p = 1 then some ⟨fun _ _ _ => .success⟩ else none

/-- A sample notification on the registered platform with two tokens. -/
def sampleNotification : Notification := ⟨1, ["a", "b"], {}, 0⟩

/-- A sample notification on an unregistered platform with one token. -/
def sampleUnknown : Notification := ⟨2, ["c"], {}, 0⟩

/-- An adapter that reports a retryable timeout on every attempt. -/
def timeoutAdapter : Adapter := ⟨fun _ _ _ => .retryableFailure "Timeout"⟩

/-- A registry registering the timeout adapter for every platform. -/
def timeoutRegistry : Registry := fun _ => some timeoutAdapter

/-- The over-limit branch of pushHandler: a parseable batch of nonzero
length above the limit is rejected with the over-limit reason, nothing is
queued and Stats passes through unchanged. -/
theorem pushHandler_over_limit (registry : Registry) (maxRetry : Nat)
    (maxNotification : Int) (stats : Stats) (form : RequestPush)
    (hlen : form.notifications.length ≠ 0)
    (hover : (form.notifications.length : Int) > maxNotification) :
    pushHandler registry maxRetry maxNotification stats (.ok form) =
      (⟨abortWithError 400
          (overLimitMsg form.notifications.length maxNotification), none⟩,
       stats) := by
  simp [pushHandler, hlen, hover]

/-- The accepted branch of pushHandler: a parseable batch of nonzero
length within the limit is handed to queueNotification and its summary is
echoed in the 200 response. -/
theorem pushHandler_accepted (registry : Registry) (maxRetry : Nat)
    (maxNotification : Int) (stats : Stats) (form : RequestPush)
    (hlen : form.notifications.length ≠ 0)
    (hnot : ¬ ((form.notifications.length : Int) > maxNotification)) :
    pushHandler registry maxRetry maxNotification stats (.ok form) =
      (⟨.replied 200 "ok"
          (queueNotification registry maxRetry stats form).1
          (queueNotification registry maxRetry stats form).2.1,
        some form⟩,
       (queueNotification registry maxRetry stats form).2.2) := by
  simp [pushHandler, hlen, hnot]

/-- The counts returned for a batch partition its log entries. -/
theorem queueNotification_counts_sum (registry : Registry) (maxRetry : Nat)
    (stats : Stats) (form : RequestPush) :
    (queueNotification registry maxRetry stats form).1.success +
      (queueNotification registry maxRetry stats form).1.failure =
      (queueNotification registry maxRetry stats form).2.1.length :=
  filter_status_partition (batchLogs registry maxRetry form.notifications)
    (batchLogs_status registry maxRetry form.notifications)

/-- The submitted delta of a batch is exactly its token count. -/
theorem queueNotification_submitted (registry : Registry) (maxRetry : Nat)
    (stats : Stats) (form : RequestPush) :
    (queueNotification registry maxRetry stats form).2.2.submitted =
      stats.submitted + totalTokens form.notifications := by
  have h : (queueNotification registry maxRetry stats form).2.2 =
      applyOps stats
        (queueStatOps registry maxRetry (batchJobs form.notifications)) :=
    rfl
  rw [h, applyOps_submitted, queueStatOps_submitted]
  exact congrArg (stats.submitted + ·) (enumFrom_tokens_sum form.notifications 0)

/-- The succeeded delta of a batch is exactly its success count. -/
theorem queueNotification_succeeded (registry : Registry) (maxRetry : Nat)
    (stats : Stats) (form : RequestPush) :
    (queueNotification registry maxRetry stats form).2.2.succeeded =
      stats.succeeded +
        (queueNotification registry maxRetry stats form).1.success := by
  have h : (queueNotification registry maxRetry stats form).2.2 =
      applyOps stats
        (queueStatOps registry maxRetry (batchJobs form.notifications)) :=
    rfl
  rw [h, applyOps_succeeded, queueStatOps_succeeded]
  rfl

/-- The failed delta of a batch is exactly its failure count. -/
theorem queueNotification_failed (registry : Registry) (maxRetry : Nat)
    (stats : Stats) (form : RequestPush) :
    (queueNotification registry maxRetry stats form).2.2.failed =
      stats.failed +
        (queueNotification registry maxRetry stats form).1.failure := by
  have h : (queueNotification registry maxRetry stats form).2.2 =
      applyOps stats
        (queueStatOps registry maxRetry (batchJobs form.notifications)) :=
    rfl
  rw [h, applyOps_failed, queueStatOps_failed]
  rfl

/-- C1 counterexample: with MaxNotification configured to -1, the parseable
empty batch has length exceeding the configured limit, yet pushHandler
rejects it with the empty-batch reason rather than the over-limit
reason. -/
theorem C1_counterexample :
    ((0 : Int) > -1) ∧
    (pushHandler sampleRegistry 0 (-1) ⟨0, 0, 0⟩ (.ok ⟨[]⟩)).1.response ≠
      abortWithError 400 (overLimitMsg 0 (-1)) ∧
    (pushHandler sampleRegistry 0 (-1) ⟨0, 0, 0⟩ (.ok ⟨[]⟩)).1.response =
      abortWithError 400 emptyFieldMsg := by
  refine ⟨by decide, by decide, by decide⟩

/-- C1 (amended): for every parseable non-empty batch whose length exceeds
MaxNotification, pushHandler rejects it with the over-limit reason, does
not invoke queueNotification, and leaves Stats unchanged; an empty batch
is instead rejected with the empty-batch reason. -/
theorem C1_over_limit_rejection (registry : Registry) (maxRetry : Nat)
    (maxNotification : Int) (stats : Stats) (form : RequestPush)
    (hne : form.notifications ≠ [])
    (hover : (form.notifications.length : Int) > maxNotification) :
    pushHandler registry maxRetry maxNotification stats (.ok form) =
      (⟨abortWithError 400
          (overLimitMsg form.notifications.length maxNotification), none⟩,
       stats) :=
  pushHandler_over_limit registry maxRetry maxNotification stats form
    (fun h => hne (List.length_eq_zero.mp h)) hover

/-- C1 witness: a concrete over-limit batch of one notification against a
limit of zero is rejected with the over-limit reason, nothing queued and
Stats untouched. -/
theorem C1_witness :
    (([sampleNotification] : List Notification) ≠ [] ∧ ((1 : Int) > 0)) ∧
    pushHandler sampleRegistry 0 0 ⟨0, 0, 0⟩ (.ok ⟨[sampleNotification]⟩) =
      (⟨abortWithError 400 (overLimitMsg 1 0), none⟩, ⟨0, 0, 0⟩) := by
  refine ⟨⟨by decide, by decide⟩, ?_⟩
  exact C1_over_limit_rejection sampleRegistry 0 0 ⟨0, 0, 0⟩
    ⟨[sampleNotification]⟩ (by decide) (by decide)

/-- C2: pushHandler rejects a malformed body and an empty batch without
invoking queueNotification and without touching Stats, and the three
rejection reasons (malformed, empty, over-limit) are pairwise distinct. -/
theorem C2_rejections (registry : Registry) (maxRetry : Nat)
    (maxNotification : Int) (stats : Stats) :
    (∀ e, pushHandler registry maxRetry maxNotification stats (.error e) =
      (⟨abortWithError 400 missingFieldMsg, none⟩, stats)) ∧
    (∀ form : RequestPush, form.notifications = [] →
      pushHandler registry maxRetry maxNotification stats (.ok form) =
        (⟨abortWithError 400 emptyFieldMsg, none⟩, stats)) ∧
    missingFieldMsg ≠ emptyFieldMsg ∧
    (∀ (k : Nat) (limit : Int), overLimitMsg k limit ≠ missingFieldMsg) ∧
    (∀ (k : Nat) (limit : Int), overLimitMsg k limit ≠ emptyFieldMsg) := by
  refine ⟨fun e => rfl, fun form hform => ?_, by decide,
    overLimitMsg_ne_missingFieldMsg, overLimitMsg_ne_emptyFieldMsg⟩
  simp [pushHandler, hform]

/-- C2 witness: concrete malformed and empty submissions are rejected with
their distinct reasons, nothing queued and Stats untouched. -/
theorem C2_witness :
    pushHandler sampleRegistry 0 100 ⟨0, 0, 0⟩ (.error "bind error") =
      (⟨abortWithError 400 missingFieldMsg, none⟩, ⟨0, 0, 0⟩) ∧
    (RequestPush.mk []).notifications = [] ∧
    pushHandler sampleRegistry 0 100 ⟨0, 0, 0⟩ (.ok ⟨[]⟩) =
      (⟨abortWithError 400 emptyFieldMsg, none⟩, ⟨0, 0, 0⟩) := by
  obtain ⟨h1, h2, _⟩ := C2_rejections sampleRegistry 0 100 ⟨0, 0, 0⟩
  exact ⟨h1 "bind error", rfl, h2 ⟨[]⟩ rfl⟩

/-- C3: for every accepted batch (parseable, non-empty, within the limit)
pushHandler invokes queueNotification on the batch, which synchronously
returns the counts and logs pair echoed in the 200 response, and the logs
hold one entry per attempted (notification, token) pair. -/
theorem C3_accepted_calls_engine (registry : Registry) (maxRetry : Nat)
    (maxNotification : Int) (stats : Stats) (form : RequestPush)
    (hne : form.notifications ≠ [])
    (hle : (form.notifications.length : Int) ≤ maxNotification) :
    pushHandler registry maxRetry maxNotification stats (.ok form) =
      (⟨.replied 200 "ok"
          (queueNotification registry maxRetry stats form).1
          (queueNotification registry maxRetry stats form).2.1,
        some form⟩,
       (queueNotification registry maxRetry stats form).2.2) ∧
    (queueNotification registry maxRetry stats form).2.1.length =
      totalTokens form.notifications := by
  constructor
  · exact pushHandler_accepted registry maxRetry maxNotification stats form
      (fun h => hne (List.length_eq_zero.mp h)) (not_lt.mpr hle)
  · exact batchLogs_length registry maxRetry form.notifications

/-- C3 witness: a concrete two-notification batch within the limit is
queued and answered with the engine's counts and logs, one log entry per
token. -/
theorem C3_witness :
    (([sampleNotification, sampleUnknown] : List Notification) ≠ [] ∧
      ((2 : Int) ≤ 100)) ∧
    pushHandler sampleRegistry 3 100 ⟨0, 0, 0⟩
        (.ok ⟨[sampleNotification, sampleUnknown]⟩) =
      (⟨.replied 200 "ok"
          (queueNotification sampleRegistry 3 ⟨0, 0, 0⟩
            ⟨[sampleNotification, sampleUnknown]⟩).1
          (queueNotification sampleRegistry 3 ⟨0, 0, 0⟩
            ⟨[sampleNotification, sampleUnknown]⟩).2.1,
        some ⟨[sampleNotification, sampleUnknown]⟩⟩,
       (queueNotification sampleRegistry 3 ⟨0, 0, 0⟩
         ⟨[sampleNotification, sampleUnknown]⟩).2.2) ∧
    (queueNotification sampleRegistry 3 ⟨0, 0, 0⟩
      ⟨[sampleNotification, sampleUnknown]⟩).2.1.length =
      totalTokens [sampleNotification, sampleUnknown] := by
  refine ⟨⟨by decide, by decide⟩, ?_⟩
  exact C3_accepted_calls_engine sampleRegistry 3 100 ⟨0, 0, 0⟩
    ⟨[sampleNotification, sampleUnknown]⟩ (by decide) (by decide)

/-- C4: for every batch handed to the engine, the number of log entries
equals the total token count, the returned counts sum to the number of log
entries, and the Stats delta attributable to the batch matches those
counts exactly. -/
theorem C4_counts_consistent (registry : Registry) (maxRetry : Nat)
    (stats : Stats) (form : RequestPush) :
    (queueNotification registry maxRetry stats form).2.1.length =
      totalTokens form.notifications ∧
    (queueNotification registry maxRetry stats form).1.success +
      (queueNotification registry maxRetry stats form).1.failure =
      (queueNotification registry maxRetry stats form).2.1.length ∧
    (queueNotification registry maxRetry stats form).2.2.submitted =
      stats.submitted + totalTokens form.notifications ∧
    (queueNotification registry maxRetry stats form).2.2.succeeded =
      stats.succeeded +
        (queueNotification registry maxRetry stats form).1.success ∧
    (queueNotification registry maxRetry stats form).2.2.failed =
      stats.failed +
        (queueNotification registry maxRetry stats form).1.failure := by
  exact ⟨batchLogs_length registry maxRetry form.notifications,
    queueNotification_counts_sum registry maxRetry stats form,
    queueNotification_submitted registry maxRetry stats form,
    queueNotification_succeeded registry maxRetry stats form,
    queueNotification_failed registry maxRetry stats form⟩

/-- C5: when the adapter reports a retryable failure on every attempt, the
retry policy yields RetryAfter while retry_count is below MaxRetry, the
delivery is attempted exactly MaxRetry + 1 times in total and is recorded
as a permanent RetryExhausted failure; success and permanent failures
always stop immediately. -/
theorem C5_retry_policy (registry : Registry) (maxRetry idx : Nat)
    (n : Notification) (token : String) (adapter : Adapter)
    (hreg : registry n.platform = some adapter)
    (hzero : n.retry_count = 0)
    (hret : ∀ k, ∃ r,
      adapter.send token n.payload k = .retryableFailure r) :
    processToken registry maxRetry idx n token =
      (mkLogEntry idx token (.permanentFailure "RetryExhausted"),
       maxRetry + 1) ∧
    (∀ r rc, rc < maxRetry →
      nextAction (.retryableFailure r) rc maxRetry =
        .retryAfter (backoff rc)) ∧
    (∀ rc m, nextAction .success rc m = .stop .success) ∧
    (∀ r rc m, nextAction (.permanentFailure r) rc m =
      .stop (.permanentFailure r)) := by
  refine ⟨?_, fun r rc hrc => by simp [nextAction, hrc],
    fun rc m => rfl, fun r rc m => rfl⟩
  rw [processToken, hreg]
  simp only [deliverFrom, hzero, Nat.sub_zero]
  rw [deliverGo_retryable (fun k => adapter.send token n.payload k) hret
    maxRetry 0]

/-- C5 witness: against the always-retryable timeout adapter with
MaxRetry 2, the concrete delivery is attempted three times and recorded as
RetryExhausted. -/
theorem C5_witness :
    timeoutRegistry sampleNotification.platform = some timeoutAdapter ∧
    sampleNotification.retry_count = 0 ∧
    processToken timeoutRegistry 2 0 sampleNotification "a" =
      (mkLogEntry 0 "a" (.permanentFailure "RetryExhausted"), 3) := by
  refine ⟨rfl, rfl, ?_⟩
  exact (C5_retry_policy timeoutRegistry 2 0 sampleNotification "a"
    timeoutAdapter rfl rfl (fun k => ⟨"Timeout", rfl⟩)).1

/-- C6: a notification on a platform with no registered adapter yields one
permanent UnknownPlatform failure log per token with zero adapter
invocations (no network contact), and the worker continues draining the
rest of the queue. -/
theorem C6_unknown_platform (registry : Registry) (maxRetry idx : Nat)
    (n : Notification) (rest : List Job)
    (hreg : registry n.platform = none) :
    processJob registry maxRetry (idx, n) =
      n.tokens.map (fun t =>
        (mkLogEntry idx t (.permanentFailure "UnknownPlatform"), 0)) ∧
    (∀ p ∈ processJob registry maxRetry (idx, n), p.2 = 0) ∧
    workerDrain registry maxRetry ((idx, n) :: rest) =
      processJob registry maxRetry (idx, n) ++
        workerDrain registry maxRetry rest := by
  refine ⟨by simp [processJob, processToken, hreg], ?_, rfl⟩
  intro p hp
  rw [processJob] at hp
  obtain ⟨t, _, rfl⟩ := List.mem_map.mp hp
  simp [processToken, hreg]

/-- C6 witness: the concrete unknown-platform notification produces its
UnknownPlatform failure log with zero adapter invocations and the queue
behind it is still drained. -/
theorem C6_witness :
    sampleRegistry sampleUnknown.platform = none ∧
    processJob sampleRegistry 3 (0, sampleUnknown) =
      [(mkLogEntry 0 "c" (.permanentFailure "UnknownPlatform"), 0)] ∧
    workerDrain sampleRegistry 3 [(0, sampleUnknown), (1, sampleNotification)] =
      processJob sampleRegistry 3 (0, sampleUnknown) ++
        workerDrain sampleRegistry 3 [(1, sampleNotification)] := by
  have h := C6_unknown_platform sampleRegistry 3 0 sampleUnknown
    [(1, sampleNotification)] rfl
  exact ⟨rfl, h.1, h.2.2⟩

/-- C7: the Stats counters are monotonically non-decreasing under every
sequence of engine increments, and for a batch only terminal outcomes are
folded in: the submitted delta is exactly the batch's token count and the
succeeded plus failed delta equals it too, independently of how many retry
attempts any delivery took. -/
theorem C7_stats_monotone (s : Stats) (ops : List StatOp)
    (registry : Registry) (maxRetry : Nat) (stats : Stats)
    (form : RequestPush) :
    (s.submitted ≤ (applyOps s ops).submitted ∧
     s.succeeded ≤ (applyOps s ops).succeeded ∧
     s.failed ≤ (applyOps s ops).failed) ∧
    (queueNotification registry maxRetry stats form).2.2.submitted =
      stats.submitted + totalTokens form.notifications ∧
    (queueNotification registry maxRetry stats form).2.2.succeeded +
      (queueNotification registry maxRetry stats form).2.2.failed =
      stats.succeeded + stats.failed + totalTokens form.notifications := by
  have hlen : (queueNotification registry maxRetry stats form).2.1.length =
      totalTokens form.notifications :=
    batchLogs_length registry maxRetry form.notifications
  have hsum := queueNotification_counts_sum registry maxRetry stats form
  have hsucc := queueNotification_succeeded registry maxRetry stats form
  have hfail := queueNotification_failed registry maxRetry stats form
  refine ⟨⟨?_, ?_, ?_⟩,
    queueNotification_submitted registry maxRetry stats form, ?_⟩
  · rw [applyOps_submitted]; omega
  · rw [applyOps_succeeded]; omega
  · rw [applyOps_failed]; omega
  · rw [hsucc, hfail]
    omega

/-- C8: under any interleaving of the per-token Stats increments emitted by
the workers for a list of batches, no update is lost: the final submitted
counter equals the initial value plus the exact sum of token counts over
all notifications of all batches. -/
theorem C8_no_lost_updates (registry : Registry) (maxRetry : Nat)
    (stats : Stats) (batches : List (List Notification))
    (sched : List StatOp)
    (hperm : sched.Perm
      ((batches.map (fun b =>
        queueStatOps registry maxRetry (batchJobs b))).flatten)) :
    (applyOps stats sched).submitted =
      stats.submitted + (batches.map totalTokens).sum := by
  have hb : ∀ b : List Notification,
      ((queueStatOps registry maxRetry (batchJobs b)).map opSubmitted).sum =
        totalTokens b := by
    intro b
    rw [queueStatOps_submitted]
    exact enumFrom_tokens_sum b 0
  have hflat : ∀ bs : List (List Notification),
      (((bs.map (fun b =>
          queueStatOps registry maxRetry (batchJobs b))).flatten).map
        opSubmitted).sum = (bs.map totalTokens).sum := by
    intro bs
    induction bs with
    | nil => simp
    | cons b rest ih =>
        simp only [List.map_cons, List.flatten_cons, List.map_append,
          List.sum_append, List.sum_cons, ih, hb b]
  rw [applyOps_submitted, (hperm.map opSubmitted).sum_eq, hflat]

/-- C8 witness: a concrete shuffled interleaving of the increments of two
parallel batches still sums to the exact total of three tokens. -/
theorem C8_witness :
    ([StatOp.incSubmitted 1, StatOp.incSubmitted 1, StatOp.incFailed 1,
      StatOp.incSucceeded 1, StatOp.incSubmitted 1,
      StatOp.incSucceeded 1] : List StatOp).Perm
      (([[sampleNotification], [sampleUnknown]].map (fun b =>
        queueStatOps sampleRegistry 3 (batchJobs b))).flatten) ∧
    (applyOps ⟨0, 0, 0⟩
      [StatOp.incSubmitted 1, StatOp.incSubmitted 1, StatOp.incFailed 1,
       StatOp.incSucceeded 1, StatOp.incSubmitted 1,
       StatOp.incSucceeded 1]).submitted =
      (0 : Nat) + ([[sampleNotification], [sampleUnknown]].map
        totalTokens).sum := by
  refine ⟨by decide, ?_⟩
  exact C8_no_lost_updates sampleRegistry 3 ⟨0, 0, 0⟩
    [[sampleNotification], [sampleUnknown]]
    [StatOp.incSubmitted 1, StatOp.incSubmitted 1, StatOp.incFailed 1,
     StatOp.incSucceeded 1, StatOp.incSubmitted 1, StatOp.incSucceeded 1]
    (by decide)

/-- C9: every admission rejection aborts with HTTP 400 and a JSON body of
exactly the fields code and message, with the handler returning before
queueNotification is invoked; an accepted batch yields HTTP 200 carrying
success ok together with the engine's counts and logs. -/
theorem C9_http_contract (registry : Registry) (maxRetry : Nat)
    (maxNotification : Int) (stats : Stats) :
    (∀ e, pushHandler registry maxRetry maxNotification stats (.error e) =
      (⟨.aborted 400 ⟨400, missingFieldMsg⟩, none⟩, stats)) ∧
    (∀ form : RequestPush,
      form.notifications.length = 0 ∨
        (form.notifications.length : Int) > maxNotification →
      pushHandler registry maxRetry maxNotification stats (.ok form) =
        (⟨.aborted 400
            ⟨400, if form.notifications.length = 0 then emptyFieldMsg
              else overLimitMsg form.notifications.length maxNotification⟩,
          none⟩, stats)) ∧
    (∀ form : RequestPush, form.notifications.length ≠ 0 →
      ¬ ((form.notifications.length : Int) > maxNotification) →
      pushHandler registry maxRetry maxNotification stats (.ok form) =
        (⟨.replied 200 "ok"
            (queueNotification registry maxRetry stats form).1
            (queueNotification registry maxRetry stats form).2.1,
          some form⟩,
         (queueNotification registry maxRetry stats form).2.2)) := by
  refine ⟨fun e => rfl, fun form hrej => ?_, fun form hne hlim => ?_⟩
  · by_cases h0 : form.notifications.length = 0
    · simp [pushHandler, h0, abortWithError]
    · have hover : (form.notifications.length : Int) > maxNotification := by
        rcases hrej with h | h
        · exact absurd h h0
        · exact h
      simp [pushHandler, h0, hover, abortWithError]
  · simp [pushHandler, hne, hlim]

/-- C9 witness: a concrete malformed body, an empty batch, an over-limit
batch and an accepted batch each produce the stated HTTP status, body and
queueing behaviour. -/
theorem C9_witness :
    pushHandler sampleRegistry 3 1 ⟨0, 0, 0⟩ (.error "bind error") =
      (⟨.aborted 400 ⟨400, missingFieldMsg⟩, none⟩, ⟨0, 0, 0⟩) ∧
    pushHandler sampleRegistry 3 1 ⟨0, 0, 0⟩ (.ok ⟨[]⟩) =
      (⟨.aborted 400 ⟨400, emptyFieldMsg⟩, none⟩, ⟨0, 0, 0⟩) ∧
    pushHandler sampleRegistry 3 1 ⟨0, 0, 0⟩
        (.ok ⟨[sampleNotification, sampleUnknown]⟩) =
      (⟨.aborted 400 ⟨400, overLimitMsg 2 1⟩, none⟩, ⟨0, 0, 0⟩) ∧
    pushHandler sampleRegistry 3 1 ⟨0, 0, 0⟩ (.ok ⟨[sampleUnknown]⟩) =
      (⟨.replied 200 "ok"
          (queueNotification sampleRegistry 3 ⟨0, 0, 0⟩ ⟨[sampleUnknown]⟩).1
          (queueNotification sampleRegistry 3 ⟨0, 0, 0⟩
            ⟨[sampleUnknown]⟩).2.1,
        some ⟨[sampleUnknown]⟩⟩,
       (queueNotification sampleRegistry 3 ⟨0, 0, 0⟩ ⟨[sampleUnknown]⟩).2.2) := by
  obtain ⟨h1, h2, h3⟩ := C9_http_contract sampleRegistry 3 1 ⟨0, 0, 0⟩
  refine ⟨h1 "bind error", ?_, ?_, ?_⟩
  · have := h2 ⟨[]⟩ (Or.inl rfl)
    simpa using this
  · have := h2 ⟨[sampleNotification, sampleUnknown]⟩ (Or.inr (by decide))
    simpa using this
  · exact h3 ⟨[sampleUnknown]⟩ (by decide) (by decide)

/-- C10: the over-limit admission check is strict: a parseable non-empty
batch of exactly MaxNotification notifications is accepted and passed to
queueNotification, while a zero or negative MaxNotification makes every
parseable non-empty batch be rejected as over-limit. -/
theorem C10_boundary (registry : Registry) (maxRetry : Nat) (stats : Stats) :
    (∀ (maxNotification : Int) (form : RequestPush),
      form.notifications ≠ [] →
      (form.notifications.length : Int) = maxNotification →
      pushHandler registry maxRetry maxNotification stats (.ok form) =
        (⟨.replied 200 "ok"
            (queueNotification registry maxRetry stats form).1
            (queueNotification registry maxRetry stats form).2.1,
          some form⟩,
         (queueNotification registry maxRetry stats form).2.2)) ∧
    (∀ (maxNotification : Int) (form : RequestPush),
      maxNotification ≤ 0 → form.notifications ≠ [] →
      pushHandler registry maxRetry maxNotification stats (.ok form) =
        (⟨abortWithError 400
            (overLimitMsg form.notifications.length maxNotification),
          none⟩, stats)) := by
  constructor
  · intro maxNotification form hne heq
    have hnot : ¬ ((form.notifications.length : Int) > maxNotification) := by
      omega
    exact pushHandler_accepted registry maxRetry maxNotification stats form
      (fun h => hne (List.length_eq_zero.mp h)) hnot
  · intro maxNotification form hmax hne
    have hpos : 0 < form.notifications.length := List.length_pos.mpr hne
    have hover : (form.notifications.length : Int) > maxNotification := by
      omega
    exact pushHandler_over_limit registry maxRetry maxNotification stats
      form (fun h => hne (List.length_eq_zero.mp h)) hover

/-- C10 witness: a two-notification batch is accepted at a limit of
exactly 2, and a one-notification batch is rejected as over-limit at a
limit of 0. -/
theorem C10_witness :
    (([sampleNotification, sampleUnknown] : List Notification) ≠ [] ∧
      ((2 : Int) = 2)) ∧
    pushHandler sampleRegistry 3 2 ⟨0, 0, 0⟩
        (.ok ⟨[sampleNotification, sampleUnknown]⟩) =
      (⟨.replied 200 "ok"
          (queueNotification sampleRegistry 3 ⟨0, 0, 0⟩
            ⟨[sampleNotification, sampleUnknown]⟩).1
          (queueNotification sampleRegistry 3 ⟨0, 0, 0⟩
            ⟨[sampleNotification, sampleUnknown]⟩).2.1,
        some ⟨[sampleNotification, sampleUnknown]⟩⟩,
       (queueNotification sampleRegistry 3 ⟨0, 0, 0⟩
         ⟨[sampleNotification, sampleUnknown]⟩).2.2) ∧
    pushHandler sampleRegistry 3 0 ⟨0, 0, 0⟩ (.ok ⟨[sampleUnknown]⟩) =
      (⟨abortWithError 400 (overLimitMsg 1 0), none⟩, ⟨0, 0, 0⟩) := by
  obtain ⟨ha, hb⟩ := C10_boundary sampleRegistry 3 ⟨0, 0, 0⟩
  refine ⟨⟨by decide, rfl⟩, ?_, ?_⟩
  · exact ha 2 ⟨[sampleNotification, sampleUnknown]⟩ (by decide) (by decide)
  · exact hb 0 ⟨[sampleUnknown]⟩ (by decide) (by decide)

end Gorush
